import Mathlib

/-!
Verification development for the invoice/estimate analyzer
(src/gemini_helper.py and src/field_report_main.py).

Shallow embedding conventions:
* A PIL image is modelled by its mode string and its integer pixel
  dimensions; mode conversion and resizing act on those fields only.
* Python float arithmetic in the resizing code is modelled by exact
  rational arithmetic; the int() truncation of a nonnegative float is
  modelled by Nat floor division (the ratios involved are quotients of
  the integer dimensions, so the rational model is the exact value the
  floats approximate).
* The remote Gemini service is modelled by a RemoteOutcome parameter
  supplied to each call: the raw chat.send_message either returns a
  response whose .text field is a string, or raises an exception whose
  rendered message is a string.  Chat handles are modelled by creation
  counter ids (Nat); start_chat either returns a fresh handle or, when
  the underlying library call raises, None.
* Streamlit session_state is the SessionState record; each button or
  input handler is a function from the pre-state (plus the remote
  outcome) to the post-state, following the assignment order of the
  source.
-/

namespace CostCoding

/-- A raster image: PIL mode name plus pixel dimensions. -/
structure Img where
  mode : String
  width : Nat
  height : Nat
deriving DecidableEq

/-- Role tag of a chat message dict in field_report_main.py; the app only
ever appends the strings user and assistant. -/
inductive Role where
  | user
  | assistant
deriving DecidableEq

/-- One chat message dict: a role plus a content string. -/
structure Turn where
  role : Role
  content : String
deriving DecidableEq

/-- Outcome of one raw remote send_message call: the service either
returns a response with the given text, or raises an exception whose
string rendering is the given message. -/
inductive RemoteOutcome where
  | success (text : String)
  | raised (msg : String)
deriving DecidableEq

/-- image.convert applied when image.mode is not RGB
(gemini_helper.py lines 30-31 and field_report_main.py lines 27-28);
conversion changes the mode and keeps the dimensions. -/
def toRGB (image : Img) : Img :=
  if image.mode ≠ "RGB" then { image with mode := "RGB" } else image

/-- GeminiInspector.prepare_image (gemini_helper.py lines 28-39):
convert to RGB, then if the larger dimension exceeds 4096 rescale both
dimensions by the ratio 4096 / max(size), truncating to integers. -/
def prepare_image (image : Img) : Img :=
  let image2 := toRGB image
  if max image2.width image2.height > 4096 then
    { image2 with
        width := image2.width * 4096 / max image2.width image2.height,
        height := image2.height * 4096 / max image2.width image2.height }
  else image2

/-- The error text returned by GeminiInspector.analyze_image when any
exception is caught (gemini_helper.py line 299); the contraction in the
source Details sentence is spelled out because this file avoids
apostrophes. -/
def errorAnalyzingMsg (e : String) : String :=
  "Error analyzing image: " ++ e ++
    "\nDetails: Please ensure your API key is valid and you are using a supported image format."

/-- The error text returned by GeminiInspector.send_message when any
exception is caught (gemini_helper.py line 314). -/
def errorSendingMsg (e : String) : String :=
  "Error sending message: " ++ e

/-- The rendered message of the AttributeError Python raises when
send_message is invoked on a None chat handle. -/
def attributeErrorMsg : String :=
  "AttributeError: NoneType object has no attribute send_message"

/-- GeminiInspector.analyze_image (gemini_helper.py lines 41-299): the
whole body runs under try/except, so the function always returns a
string.  The image is normalized and submitted together with the fixed
instruction prompt (an opaque constant, not altered at runtime and not
needed by any claim); on success the response text is returned, on any
exception the flagged error text is returned.  A None chat makes the
attribute access raise, which the except clause also catches. -/
def analyze_image (outcome : RemoteOutcome) (chat : Option Nat) (image : Img) : String :=
  match chat with
  | none => errorAnalyzingMsg attributeErrorMsg
  | some _ =>
    let _processed := prepare_image image
    match outcome with
    | .success t => t
    | .raised e => errorAnalyzingMsg e

/-- GeminiInspector.send_message (gemini_helper.py lines 308-314):
try/except around the raw send; always returns a string. -/
def send_message (outcome : RemoteOutcome) (chat : Option Nat) (_message : String) : String :=
  match chat with
  | none => errorSendingMsg attributeErrorMsg
  | some _ =>
    match outcome with
    | .success t => t
    | .raised e => errorSendingMsg e

/-- GeminiInspector.start_chat (gemini_helper.py lines 301-306): returns
a fresh chat object, or None when the library call raises.  Handles are
modelled as creation-counter ids, so a successful call returns the next
unused id together with the advanced counter. -/
def start_chat (ok : Bool) (nextHandle : Nat) : Option Nat × Nat :=
  if ok then (some nextHandle, nextHandle + 1) else (none, nextHandle)

/-- The Streamlit session_state fields used by field_report_main.py
(lines 159-166), plus the handle creation counter of the model. -/
structure SessionState where
  chat : Option Nat
  messages : List Turn
  image_analyzed : Bool
  current_image : Option Img
  nextHandle : Nat
deriving DecidableEq

/-- Clear Chat History handler (field_report_main.py lines 178-182):
messages emptied, chat replaced by a fresh start_chat result,
image_analyzed reset; current_image is not touched. -/
def clearChat (ok : Bool) (s : SessionState) : SessionState :=
  let r := start_chat ok s.nextHandle
  { s with messages := [], chat := r.1, image_analyzed := false, nextHandle := r.2 }

/-- Analyze Invoice/Estimate handler (field_report_main.py lines
205-216): store the uploaded image, call analyze_image, append the
returned string as an assistant turn, set image_analyzed.  All of this
is unconditional in the source. -/
def analyzeButton (outcome : RemoteOutcome) (image : Img) (s : SessionState) : SessionState :=
  let s1 := { s with current_image := some image }
  let report := analyze_image outcome s1.chat image
  { s1 with
      messages := s1.messages ++ [{ role := .assistant, content := report }],
      image_analyzed := true }

/-- Chat input handler (field_report_main.py lines 226-237): append the
user turn, call send_message, append the returned string as an
assistant turn. -/
def chatInput (outcome : RemoteOutcome) (prompt : String) (s : SessionState) : SessionState :=
  let s1 := { s with messages := s.messages ++ [({ role := .user, content := prompt } : Turn)] }
  let response := send_message outcome s1.chat prompt
  { s1 with messages := s1.messages ++ [({ role := .assistant, content := response } : Turn)] }

/-- A sequence of follow-up round trips, each with its own prompt and
successful response text, run left to right through the chat input
handler. -/
def runFollowUps (pairs : List (String × String)) (s : SessionState) : SessionState :=
  pairs.foldl (fun st pr => chatInput (.success pr.2) pr.1 st) s

/-- resize_image_for_pdf (field_report_main.py lines 14-56) with the
default bounds max_width = 4 inch = 288 and max_height = 5 inch = 360:
convert to RGB, then shrink to fit the bounds keeping the aspect ratio.
The float comparisons and truncations are modelled exactly over the
rationals: 288 * h / w > 360 iff 288 * h > 360 * w. -/
def resize_image_for_pdf (image : Img) : Img :=
  let image2 := toRGB image
  let w := image2.width
  let h := image2.height
  if w > 288 ∨ h > 360 then
    if w > 288 then
      if 288 * h > 360 * w then
        { image2 with width := 360 * w / h, height := 360 }
      else
        { image2 with width := 288, height := 288 * h / w }
    else if h > 360 then
      { image2 with width := 360 * w / h, height := 360 }
    else
      image2
  else image2

/-- One element of the reportlab story list built by
generate_pdf_report.  The constructors record the style distinctions the
source makes: the title paragraph, spacers, the embedded image, the
section header paragraph of a turn, and the message paragraph of a turn
(whose style is chosen from the role). -/
inductive StoryItem where
  | titlePar (text : String)
  | spacer
  | imageItem (image : Img)
  | headerPar (text : String)
  | msgPar (role : Role) (content : String)
deriving DecidableEq

/-- The role string stored in the message dicts of the source. -/
def roleName : Role → String
  | .user => "user"
  | .assistant => "assistant"

/-- The three story items generate_pdf_report appends per message
(field_report_main.py lines 134-141): the capitalized role as a section
header, the content with the role-selected style, and a spacer.
Python str.capitalize agrees with String.capitalize on the two
all-lowercase role names the app uses. -/
def turnBlock (msg : Turn) : List StoryItem :=
  [ .headerPar ((roleName msg.role).capitalize),
    .msgPar msg.role msg.content,
    .spacer ]

/-- generate_pdf_report (field_report_main.py lines 58-149), projected
to the story structure: title, optional resized image, then one block
per message in order. -/
def generate_pdf_report (messages : List Turn) (current_image : Option Img) : List StoryItem :=
  [ StoryItem.titlePar "Construction Invoice/Estimate Analysis Report", StoryItem.spacer ]
    ++ (match current_image with
        | some image => [ StoryItem.imageItem (resize_image_for_pdf image), StoryItem.spacer ]
        | none => [])
    ++ messages.flatMap turnBlock

/-- The download-button path (field_report_main.py lines 258-263): it
reads messages and current_image and builds the report; no session
field is assigned, so the session component of the result is the input
session unchanged. -/
def exportAction (s : SessionState) : SessionState × List StoryItem :=
  (s, generate_pdf_report s.messages s.current_image)

/-- Extract the turn carried by a message paragraph. -/
def blockData : StoryItem → Option Turn
  | .msgPar r c => some { role := r, content := c }
  | _ => none

/-- Extract the text of a section header paragraph. -/
def headerText : StoryItem → Option String
  | .headerPar t => some t
  | _ => none

/-- Whether a story item is the embedded image. -/
def isImageItem : StoryItem → Bool
  | .imageItem _ => true
  | _ => false

/-- Every chat handle a session holds was produced by an earlier
start_chat call, so its id is below the creation counter. -/
def handleInv (s : SessionState) : Prop :=
  ∀ h, s.chat = some h → h < s.nextHandle

/-- A session right after startup (lines 159-166 and 189-190), with one
chat handle created. -/
def sessionEmpty : SessionState :=
  { chat := some 0, messages := [], image_analyzed := false,
    current_image := none, nextHandle := 1 }

/-- A sample uploaded image. -/
def imgSample : Img := { mode := "RGB", width := 100, height := 80 }

/-- An analyzed session holding a stored image and one assistant turn. -/
def sessionWithImage : SessionState :=
  { chat := some 3, messages := [{ role := .assistant, content := "report" }],
    image_analyzed := true, current_image := some imgSample, nextHandle := 4 }

/-- An analyzed session with three turns and a stored image, used to
exercise the exporter. -/
def sessionForExport : SessionState :=
  { chat := some 5,
    messages := [ { role := .assistant, content := "report" },
                  { role := .user, content := "question" },
                  { role := .assistant, content := "answer" } ],
    image_analyzed := true, current_image := some imgSample, nextHandle := 6 }

set_option maxRecDepth 8192

/-! ## Helper lemmas about the image normalizer -/

theorem toRGB_mode (image : Img) : (toRGB image).mode = "RGB" := by
  by_cases h : image.mode = "RGB" <;> simp [toRGB, h]

theorem toRGB_width (image : Img) : (toRGB image).width = image.width := by
  by_cases h : image.mode = "RGB" <;> simp [toRGB, h]

theorem toRGB_height (image : Img) : (toRGB image).height = image.height := by
  by_cases h : image.mode = "RGB" <;> simp [toRGB, h]

/-- Closed form of prepare_image: the mode becomes RGB and the
dimensions are rescaled exactly when the larger one exceeds 4096. -/
theorem prepare_image_eq (image : Img) :
    prepare_image image =
      if 4096 < max image.width image.height then
        { mode := "RGB",
          width := image.width * 4096 / max image.width image.height,
          height := image.height * 4096 / max image.width image.height }
      else { mode := "RGB", width := image.width, height := image.height } := by
  cases image with
  | mk mo w h => by_cases hm : mo = "RGB" <;> simp [prepare_image, toRGB, hm]

/-- A rescaled dimension never exceeds 4096. -/
theorem scaled_le (d m : Nat) (hd : d ≤ m) (hm : 0 < m) : d * 4096 / m ≤ 4096 := by
  calc d * 4096 / m ≤ m * 4096 / m :=
        Nat.div_le_div_right (Nat.mul_le_mul_right _ hd)
    _ = 4096 := Nat.mul_div_cancel_left _ hm

theorem prepare_image_mode (image : Img) : (prepare_image image).mode = "RGB" := by
  rw [prepare_image_eq]; split <;> rfl

theorem prepare_image_size_le (image : Img) :
    max (prepare_image image).width (prepare_image image).height ≤ 4096 := by
  rw [prepare_image_eq]
  split
  · next hgt =>
      have hm : 0 < max image.width image.height := lt_trans (by norm_num) hgt
      exact max_le (scaled_le _ _ (le_max_left _ _) hm)
        (scaled_le _ _ (le_max_right _ _) hm)
  · next hle => exact Nat.not_lt.mp hle

/-- The cross products of the rescaled and the original dimensions agree
up to the rounding slack of the floor divisions. -/
theorem aspect_preserved (w h : Nat) (hgt : 4096 < max w h) :
    |((w * 4096 / max w h : Nat) : ℤ) * (h : ℤ)
       - ((h * 4096 / max w h : Nat) : ℤ) * (w : ℤ)|
      < ((max w h : Nat) : ℤ) := by
  set m := max w h with hm
  have hm0 : 0 < m := by omega
  have e1 : m * (w * 4096 / m) + (w * 4096) % m = w * 4096 := Nat.div_add_mod _ _
  have e2 : m * (h * 4096 / m) + (h * 4096) % m = h * 4096 := Nat.div_add_mod _ _
  have r1 : (w * 4096) % m < m := Nat.mod_lt _ hm0
  have r2 : (h * 4096) % m < m := Nat.mod_lt _ hm0
  have hw : w ≤ m := le_max_left w h
  have hh : h ≤ m := le_max_right w h
  set W := w * 4096 / m
  set H := h * 4096 / m
  set r := (w * 4096) % m
  set q := (h * 4096) % m
  have e1i : (m : ℤ) * W + r = (w : ℤ) * 4096 := by exact_mod_cast e1
  have e2i : (m : ℤ) * H + q = (h : ℤ) * 4096 := by exact_mod_cast e2
  have key : (m : ℤ) * ((W : ℤ) * h - (H : ℤ) * w) = (q : ℤ) * w - (r : ℤ) * h := by
    linear_combination (h : ℤ) * e1i - (w : ℤ) * e2i
  have hm0i : (0 : ℤ) < m := by exact_mod_cast hm0
  have hwi : (w : ℤ) ≤ m := by exact_mod_cast hw
  have hhi : (h : ℤ) ≤ m := by exact_mod_cast hh
  have r1i : (r : ℤ) < m := by exact_mod_cast r1
  have r2i : (q : ℤ) < m := by exact_mod_cast r2
  have hr0 : (0 : ℤ) ≤ r := Int.ofNat_nonneg _
  have hq0 : (0 : ℤ) ≤ q := Int.ofNat_nonneg _
  have hw0 : (0 : ℤ) ≤ w := Int.ofNat_nonneg _
  have hh0 : (0 : ℤ) ≤ h := Int.ofNat_nonneg _
  have hrh : (r : ℤ) * h ≤ ((m : ℤ) - 1) * m :=
    mul_le_mul (by omega) hhi hh0 (by omega)
  have hqw : (q : ℤ) * w ≤ ((m : ℤ) - 1) * m :=
    mul_le_mul (by omega) hwi hw0 (by omega)
  have hrh0 : (0 : ℤ) ≤ (r : ℤ) * h := mul_nonneg hr0 hh0
  have hqw0 : (0 : ℤ) ≤ (q : ℤ) * w := mul_nonneg hq0 hw0
  rw [abs_lt]
  constructor
  · have h1 : (m : ℤ) * (-(m : ℤ)) < (m : ℤ) * ((W : ℤ) * h - (H : ℤ) * w) := by
      rw [key]; nlinarith [hrh, hqw0, hm0i]
    exact lt_of_mul_lt_mul_left h1 (le_of_lt hm0i)
  · have h2 : (m : ℤ) * ((W : ℤ) * h - (H : ℤ) * w) < (m : ℤ) * (m : ℤ) := by
      rw [key]; nlinarith [hqw, hrh0, hm0i]
    exact lt_of_mul_lt_mul_left h2 (le_of_lt hm0i)

/-! ## Claims about the image normalizer -/

/-- Claim C4: prepare_image always yields an RGB image whose larger
dimension is at most 4096; an image already within the bound keeps its
exact dimensions (no upscaling), and a downscaled image keeps the
aspect ratio of the input within rounding (the cross products of the
old and new dimensions differ by less than the larger input
dimension). -/
theorem c4_normalizer (image : Img) :
    (prepare_image image).mode = "RGB"
    ∧ max (prepare_image image).width (prepare_image image).height ≤ 4096
    ∧ (max image.width image.height ≤ 4096 →
        (prepare_image image).width = image.width ∧
        (prepare_image image).height = image.height)
    ∧ (4096 < max image.width image.height →
        |((prepare_image image).width : ℤ) * (image.height : ℤ)
           - ((prepare_image image).height : ℤ) * (image.width : ℤ)|
          < ((max image.width image.height : Nat) : ℤ)) := by
  refine ⟨prepare_image_mode image, prepare_image_size_le image, ?_, ?_⟩
  · intro hle
    rw [prepare_image_eq, if_neg (Nat.not_lt.mpr hle)]
    exact ⟨rfl, rfl⟩
  · intro hgt
    rw [prepare_image_eq, if_pos hgt]
    simpa using aspect_preserved image.width image.height hgt

/-- Witness for C4: a 8192 by 4000 grayscale image is downscaled with
the aspect bound, and the in-bounds sample image keeps its
dimensions. -/
theorem c4_normalizer_witness :
    (prepare_image { mode := "L", width := 8192, height := 4000 }).mode = "RGB"
    ∧ max (prepare_image { mode := "L", width := 8192, height := 4000 }).width
          (prepare_image { mode := "L", width := 8192, height := 4000 }).height ≤ 4096
    ∧ |((prepare_image { mode := "L", width := 8192, height := 4000 }).width : ℤ)
          * ((4000 : Nat) : ℤ)
         - ((prepare_image { mode := "L", width := 8192, height := 4000 }).height : ℤ)
          * ((8192 : Nat) : ℤ)|
        < ((max 8192 4000 : Nat) : ℤ)
    ∧ (prepare_image imgSample).width = imgSample.width
    ∧ (prepare_image imgSample).height = imgSample.height :=
  ⟨(c4_normalizer { mode := "L", width := 8192, height := 4000 }).1,
   (c4_normalizer { mode := "L", width := 8192, height := 4000 }).2.1,
   (c4_normalizer { mode := "L", width := 8192, height := 4000 }).2.2.2 (by decide),
   ((c4_normalizer imgSample).2.2.1 (by decide)).1,
   ((c4_normalizer imgSample).2.2.1 (by decide)).2⟩

/-- Claim C10: prepare_image is idempotent: its output is already RGB
with both dimensions within the 4096 bound, so a second application
changes nothing. -/
theorem c10_prepare_idempotent (image : Img) :
    prepare_image (prepare_image image) = prepare_image image := by
  have hmode := prepare_image_mode image
  have hsize := prepare_image_size_le image
  rw [prepare_image_eq (prepare_image image), if_neg (Nat.not_lt.mpr hsize)]
  rw [← hmode]

/-! ## Claims about the analysis pipeline and the session handlers -/

/-- Claim C1 (evaluating the code at the failing input): one Analyze
click on the freshly started empty session whose remote send raises
leaves the session with image_analyzed true, the uploaded image stored
as current_image, and the flagged error text appended as an assistant
turn, because the button handler stores the image before the call and
sets the flag unconditionally. -/
theorem c1_failed_analysis_flips_flag :
    (analyzeButton (.raised "network unreachable") imgSample sessionEmpty).image_analyzed = true
    ∧ (analyzeButton (.raised "network unreachable") imgSample sessionEmpty).current_image
        = some imgSample
    ∧ (analyzeButton (.raised "network unreachable") imgSample sessionEmpty).messages
        = [{ role := Role.assistant, content := errorAnalyzingMsg "network unreachable" }] := by
  refine ⟨rfl, rfl, ?_⟩
  simp [analyzeButton, analyze_image, sessionEmpty]

/-- Claim C3 (evaluating the code at the failing input): when the
remote send raises, analyze_image itself returns the error text in the
fixed flagged format and appends nothing, but the button handler then
appends that very string to the history as an ordinary assistant turn
and marks the session analyzed, exactly as it does on success. -/
theorem c3_error_turn_appended :
    analyze_image (.raised "DeadlineExceeded") sessionEmpty.chat imgSample
        = errorAnalyzingMsg "DeadlineExceeded"
    ∧ (analyzeButton (.raised "DeadlineExceeded") imgSample sessionEmpty).messages
        = [{ role := Role.assistant, content := errorAnalyzingMsg "DeadlineExceeded" }]
    ∧ (analyzeButton (.raised "DeadlineExceeded") imgSample sessionEmpty).messages.length = 1
    ∧ (analyzeButton (.raised "DeadlineExceeded") imgSample sessionEmpty).image_analyzed = true := by
  refine ⟨rfl, ?_, rfl, rfl⟩
  simp [analyzeButton, analyze_image, sessionEmpty]

/-- Claim C2 counterexample: clearing an analyzed session that holds a
stored image does not reset current_image to none, contrary to the
claim that after Clear the analyzedImage equals none. -/
theorem c2_counterexample :
    ¬ ((clearChat true sessionWithImage).current_image = none) := by
  decide

/-- Claim C2 (amended): after Clear the session has zero turns,
image_analyzed is false, and the remote handle is replaced by the
freshly created one, which is distinct from the prior handle whenever
creation succeeds; the stored analyzedImage is left unchanged rather
than reset to none. -/
theorem c2_clear_resets (s : SessionState) (ok : Bool) (hinv : handleInv s) :
    (clearChat ok s).messages = []
    ∧ (clearChat ok s).image_analyzed = false
    ∧ (clearChat ok s).current_image = s.current_image
    ∧ (ok = true →
        (clearChat ok s).chat = some s.nextHandle ∧ (clearChat ok s).chat ≠ s.chat) := by
  refine ⟨rfl, rfl, rfl, ?_⟩
  rintro rfl
  refine ⟨by simp [clearChat, start_chat], ?_⟩
  simp only [clearChat, start_chat, if_pos rfl]
  intro hEq
  have := hinv s.nextHandle hEq.symm
  omega

/-- Witness for the amended C2 at a concrete analyzed session. -/
theorem c2_clear_resets_witness :
    (clearChat true sessionWithImage).messages = []
    ∧ (clearChat true sessionWithImage).image_analyzed = false
    ∧ (clearChat true sessionWithImage).current_image = sessionWithImage.current_image
    ∧ (true = true →
        (clearChat true sessionWithImage).chat = some sessionWithImage.nextHandle
        ∧ (clearChat true sessionWithImage).chat ≠ sessionWithImage.chat) :=
  c2_clear_resets sessionWithImage true
    (by intro h hh; simp [sessionWithImage] at hh ⊢; omega)

/-- Claim C5: for every chat handle (including the None left behind by
a failed start_chat) and every outcome of the raw remote call, both
analyze_image and send_message return a string: the genuine response
text when the handle is live and the call succeeds, and otherwise the
flagged error text built from the caught exception.  In the embedding
both functions are total into String, mirroring the try/except that
seals their boundary in the source. -/
theorem c5_never_raises (chat : Option Nat) (out : RemoteOutcome) (image : Img)
    (message : String) :
    ((∃ t h, out = .success t ∧ chat = some h ∧ analyze_image out chat image = t)
      ∨ (∃ e, analyze_image out chat image = errorAnalyzingMsg e))
    ∧ ((∃ t h, out = .success t ∧ chat = some h ∧ send_message out chat message = t)
      ∨ (∃ e, send_message out chat message = errorSendingMsg e)) := by
  cases chat with
  | none => exact ⟨Or.inr ⟨attributeErrorMsg, rfl⟩, Or.inr ⟨attributeErrorMsg, rfl⟩⟩
  | some h =>
    cases out with
    | success t => exact ⟨Or.inl ⟨t, h, rfl, rfl, rfl⟩, Or.inl ⟨t, h, rfl, rfl, rfl⟩⟩
    | raised e => exact ⟨Or.inr ⟨e, rfl⟩, Or.inr ⟨e, rfl⟩⟩

/-! ## Claims about follow-ups and the first analysis -/

theorem chatInput_messages (outcome : RemoteOutcome) (prompt : String) (s : SessionState) :
    (chatInput outcome prompt s).messages
      = s.messages ++ [{ role := .user, content := prompt },
          { role := .assistant, content := send_message outcome s.chat prompt }] := by
  simp [chatInput]

theorem chatInput_chat (outcome : RemoteOutcome) (prompt : String) (s : SessionState) :
    (chatInput outcome prompt s).chat = s.chat := rfl

theorem runFollowUps_messages (pairs : List (String × String)) :
    ∀ s : SessionState, ∀ hdl : Nat, s.chat = some hdl →
      (runFollowUps pairs s).messages
        = s.messages ++ pairs.flatMap (fun pr =>
            [{ role := .user, content := pr.1 }, { role := .assistant, content := pr.2 }]) := by
  induction pairs with
  | nil => intro s hdl _; simp [runFollowUps]
  | cons p ps ih =>
    intro s hdl hC
    have step : runFollowUps (p :: ps) s
        = runFollowUps ps (chatInput (.success p.2) p.1 s) := rfl
    rw [step, ih _ hdl (by rw [chatInput_chat]; exact hC), chatInput_messages]
    simp [send_message, hC]

theorem flatMap_pair_length (pairs : List (String × String)) :
    (pairs.flatMap (fun pr =>
        [({ role := .user, content := pr.1 } : Turn),
         { role := .assistant, content := pr.2 }])).length
      = 2 * pairs.length := by
  induction pairs with
  | nil => rfl
  | cons p ps ih => simp [ih]; omega

/-- Claim C6: starting from an analyzed session with a live handle,
every sequence of successful follow-ups appends, per follow-up, the
user turn and then the assistant turn carrying the response text, so
the turn list grows by exactly 2 per follow-up and the prior turns
remain an unchanged initial segment in their original order. -/
theorem c6_followups_append (s : SessionState) (hdl : Nat)
    (_hA : s.image_analyzed = true) (hC : s.chat = some hdl)
    (pairs : List (String × String)) :
    (runFollowUps pairs s).messages
      = s.messages ++ pairs.flatMap (fun pr =>
          [{ role := .user, content := pr.1 }, { role := .assistant, content := pr.2 }])
    ∧ (runFollowUps pairs s).messages.length = s.messages.length + 2 * pairs.length := by
  have h1 := runFollowUps_messages pairs s hdl hC
  refine ⟨h1, ?_⟩
  rw [h1, List.length_append, flatMap_pair_length]

/-- Witness for C6: two follow-ups on the concrete analyzed session. -/
theorem c6_followups_append_witness :
    (runFollowUps [("q1", "a1"), ("q2", "a2")] sessionWithImage).messages
      = sessionWithImage.messages ++ [("q1", "a1"), ("q2", "a2")].flatMap (fun pr =>
          [{ role := .user, content := pr.1 }, { role := .assistant, content := pr.2 }])
    ∧ (runFollowUps [("q1", "a1"), ("q2", "a2")] sessionWithImage).messages.length
        = sessionWithImage.messages.length + 2 * [("q1", "a1"), ("q2", "a2")].length :=
  c6_followups_append sessionWithImage 3 rfl rfl [("q1", "a1"), ("q2", "a2")]

/-- Claim C8: a successful first analysis on an empty session with a
live handle appends exactly one turn, an assistant turn carrying the
response text; no user turn is stored for the prompt and image
submission, the turn count becomes 1, the flag is set and the analyzed
image is stored. -/
theorem c8_first_analysis (s : SessionState) (hdl : Nat) (image : Img) (t : String)
    (hE : s.messages = []) (hC : s.chat = some hdl) :
    (analyzeButton (.success t) image s).messages
        = [{ role := Role.assistant, content := t }]
    ∧ (analyzeButton (.success t) image s).messages.length = 1
    ∧ (∀ m ∈ (analyzeButton (.success t) image s).messages, m.role = Role.assistant)
    ∧ (analyzeButton (.success t) image s).image_analyzed = true
    ∧ (analyzeButton (.success t) image s).current_image = some image := by
  have hm : (analyzeButton (.success t) image s).messages
      = [{ role := Role.assistant, content := t }] := by
    simp [analyzeButton, analyze_image, hE, hC]
  refine ⟨hm, by rw [hm]; rfl, ?_, rfl, rfl⟩
  rw [hm]
  intro m hmem
  simp at hmem
  subst hmem
  rfl

/-- Witness for C8 at the concrete empty session. -/
theorem c8_first_analysis_witness :
    (analyzeButton (.success "The analysis") imgSample sessionEmpty).messages
        = [{ role := Role.assistant, content := "The analysis" }]
    ∧ (analyzeButton (.success "The analysis") imgSample sessionEmpty).messages.length = 1
    ∧ (∀ m ∈ (analyzeButton (.success "The analysis") imgSample sessionEmpty).messages,
        m.role = Role.assistant)
    ∧ (analyzeButton (.success "The analysis") imgSample sessionEmpty).image_analyzed = true
    ∧ (analyzeButton (.success "The analysis") imgSample sessionEmpty).current_image
        = some imgSample :=
  c8_first_analysis sessionEmpty 0 imgSample "The analysis" rfl rfl

/-! ## Claims about the report exporter -/

theorem turnBlock_filterMap_blockData (msgs : List Turn) :
    (msgs.flatMap turnBlock).filterMap blockData = msgs := by
  induction msgs with
  | nil => rfl
  | cons m ms ih => simp [turnBlock, blockData, ih]

theorem turnBlock_filterMap_headerText (msgs : List Turn) :
    (msgs.flatMap turnBlock).filterMap headerText
      = msgs.map (fun m => (roleName m.role).capitalize) := by
  induction msgs with
  | nil => rfl
  | cons m ms ih => simp [turnBlock, headerText, ih]

theorem turnBlock_no_image (msgs : List Turn) :
    ∀ x ∈ msgs.flatMap turnBlock, isImageItem x = false := by
  induction msgs with
  | nil => intro x hx; simp at hx
  | cons m ms ih =>
    intro x hx
    simp only [List.flatMap_cons, List.mem_append] at hx
    rcases hx with hx | hx
    · simp [turnBlock] at hx
      rcases hx with rfl | rfl | rfl <;> rfl
    · exact ih x hx

/-- Claim C7: the export is a pure read of the session; the story it
builds carries exactly the session turns as message blocks, in order,
each under a section header equal to its capitalized role name, and
when an analyzed image is stored, the image item sits in a preamble
that precedes every turn block. -/
theorem c7_export_fidelity (s : SessionState) :
    (exportAction s).1 = s
    ∧ (exportAction s).2.filterMap blockData = s.messages
    ∧ (exportAction s).2.filterMap headerText
        = s.messages.map (fun m => (roleName m.role).capitalize)
    ∧ (∀ image, s.current_image = some image →
        ∃ pre post, (exportAction s).2 = pre ++ post
          ∧ StoryItem.imageItem (resize_image_for_pdf image) ∈ pre
          ∧ (∀ x ∈ pre, blockData x = none)
          ∧ post.filterMap blockData = s.messages
          ∧ (∀ x ∈ post, isImageItem x = false)) := by
  refine ⟨rfl, ?_, ?_, ?_⟩
  · cases hci : s.current_image <;>
      simp [exportAction, generate_pdf_report, hci, blockData,
        turnBlock_filterMap_blockData]
  · cases hci : s.current_image <;>
      simp [exportAction, generate_pdf_report, hci, headerText,
        turnBlock_filterMap_headerText]
  · intro image hci
    refine ⟨[ StoryItem.titlePar "Construction Invoice/Estimate Analysis Report",
              StoryItem.spacer,
              StoryItem.imageItem (resize_image_for_pdf image),
              StoryItem.spacer ],
            s.messages.flatMap turnBlock, ?_, ?_, ?_, ?_, ?_⟩
    · simp [exportAction, generate_pdf_report, hci]
    · simp
    · intro x hx
      simp at hx
      rcases hx with rfl | rfl | rfl | rfl <;> rfl
    · exact turnBlock_filterMap_blockData s.messages
    · exact turnBlock_no_image s.messages

/-- Witness for C7 at a concrete three-turn session with a stored
image. -/
theorem c7_export_fidelity_witness :
    (exportAction sessionForExport).1 = sessionForExport
    ∧ (exportAction sessionForExport).2.filterMap blockData = sessionForExport.messages
    ∧ (∃ pre post, (exportAction sessionForExport).2 = pre ++ post
        ∧ StoryItem.imageItem (resize_image_for_pdf imgSample) ∈ pre
        ∧ (∀ x ∈ pre, blockData x = none)
        ∧ post.filterMap blockData = sessionForExport.messages
        ∧ (∀ x ∈ post, isImageItem x = false)) :=
  ⟨(c7_export_fidelity sessionForExport).1,
   (c7_export_fidelity sessionForExport).2.1,
   (c7_export_fidelity sessionForExport).2.2.2 imgSample rfl⟩

/-- Claim C9: of the four session fields, Clear resets the turn list,
the chat handle and the analyzed flag, but leaves current_image
unchanged, and an export taken from the cleared session still embeds
the previously analyzed image. -/
theorem c9_clear_preserves_image (s : SessionState) (ok : Bool) :
    (clearChat ok s).current_image = s.current_image
    ∧ (clearChat ok s).messages = []
    ∧ (clearChat ok s).image_analyzed = false
    ∧ (∀ image, s.current_image = some image →
        StoryItem.imageItem (resize_image_for_pdf image)
          ∈ (exportAction (clearChat ok s)).2) := by
  refine ⟨rfl, rfl, rfl, ?_⟩
  intro image hci
  have hc : (clearChat ok s).current_image = some image := by
    rw [show (clearChat ok s).current_image = s.current_image from rfl, hci]
  simp [exportAction, generate_pdf_report, hc]

/-- Witness for C9: clearing the concrete analyzed session (with a
failing handle recreation) keeps the stored image and the export of the
cleared session embeds it. -/
theorem c9_clear_preserves_image_witness :
    (clearChat false sessionWithImage).current_image = sessionWithImage.current_image
    ∧ (clearChat false sessionWithImage).messages = []
    ∧ (clearChat false sessionWithImage).image_analyzed = false
    ∧ StoryItem.imageItem (resize_image_for_pdf imgSample)
        ∈ (exportAction (clearChat false sessionWithImage)).2 :=
  ⟨(c9_clear_preserves_image sessionWithImage false).1,
   (c9_clear_preserves_image sessionWithImage false).2.1,
   (c9_clear_preserves_image sessionWithImage false).2.2.1,
   (c9_clear_preserves_image sessionWithImage false).2.2.2 imgSample rfl⟩

end CostCoding
